import Mathlib

/-!
Shallow embedding of the telemetry accumulation and scheduling core of
`dashboard.py` (a smart-plug energy dashboard).

Instants are unix seconds modelled as rationals; Python floats are modelled
exactly as rationals (every arithmetic fact proved below is exact in binary
floating point as well, since the concrete values involved are small dyadics
or are compared only through the rational semantics).  Side effects
(persistence writes, warnings, device commands, raised exceptions) are made
explicit as output fields.
-/

namespace Dashboard

/-- Python `int(x)` applied to a float truncates toward zero: floor for
non-negative arguments, ceiling for negative ones. -/
def pyInt (q : ℚ) : ℤ := if 0 ≤ q then ⌊q⌋ else ⌈q⌉

/-- `unit_cost_bdt = 6` (dashboard.py, line 27): the fixed cost per kWh. -/
def unit_cost_bdt : ℚ := 6

/-- One row of `st.session_state.history`: the record dict that
`update_history_row` builds (dashboard.py, lines 131-139). -/
structure HistoryRecord where
  time : ℚ
  current_ma : ℚ
  voltage_v : ℚ
  power_w : ℚ
  energy_kwh : ℚ
  cost_bdt : ℚ
  duration_min : ℤ
deriving DecidableEq, Repr

/-- The `st.session_state` fields that the core logic reads and writes
(dashboard.py, lines 48-67).  `last_log_time` is `none` until
`update_history_row` first assigns it (the key is absent from the session
at startup). -/
structure SessionState where
  accumulated_kwh : ℚ
  last_update_time : ℚ
  on_time : Option ℚ
  duration_minutes : ℤ
  auto_off_active : Bool
  scheduled_off_time : Option ℚ
  history : List HistoryRecord
  last_log_time : Option ℚ
deriving DecidableEq, Repr

/-- The device property codes `get_device_status` reads from the cloud
response, with the dict `.get` defaults already applied
(dashboard.py, lines 74-78): `switch_1` (default `False`), raw `cur_power`,
raw `cur_voltage` (both scaled by 1/10 later), raw `cur_current`. -/
structure DpsRaw where
  switch_1 : Bool
  cur_power : ℚ
  cur_voltage : ℚ
  cur_current : ℚ
deriving DecidableEq, Repr

/-- Outcome of `cloud.getstatus`: a successful response, or any exception
(network/auth failure — the `TransportError` of the spec). -/
inductive FetchResult where
  | ok (d : DpsRaw)
  | transportError
deriving DecidableEq, Repr

/-- The 7-tuple `get_device_status` returns (dashboard.py, line 95):
`(power_on, power, voltage, current_ma, accumulated_kwh, cost,
duration_minutes)`. -/
structure StatusTuple where
  power_on : Bool
  power : ℚ
  voltage : ℚ
  current_ma : ℚ
  kwh : ℚ
  cost : ℚ
  duration : ℤ
deriving DecidableEq, Repr

/-- Return value of `get_device_status` together with its side effects:
the updated session state and whether `st.warning` was shown
(the `except` branch, dashboard.py, lines 96-98). -/
structure StatusResult where
  tuple : StatusTuple
  state : SessionState
  warned : Bool
deriving DecidableEq, Repr

/-- `get_device_status` (dashboard.py, lines 70-98).  On a successful fetch:
scales the raw readings, advances `last_update_time` to `now`, adds
`(power / 1000) * delta_hours` to `accumulated_kwh` with
`delta_hours = (now - last_update_time) / 3600` (no clamping of a negative
delta), derives `cost`, and runs the duration state machine of lines 87-93.
On any exception: warns and returns the all-zero tuple, touching no state.
The `@st.cache_data(ttl=15)` decorator is not modelled: each application of
this function corresponds to a call that actually executes the body
(cache expired or cleared). -/
def get_device_status (fetch : FetchResult) (now : ℚ) (s : SessionState) :
    StatusResult :=
  match fetch with
  | .transportError => ⟨⟨false, 0, 0, 0, 0, 0, 0⟩, s, true⟩
  | .ok d =>
    let power_on := d.switch_1
    let power := d.cur_power / 10
    let voltage := d.cur_voltage / 10
    let current_ma := d.cur_current
    let delta_hours := (now - s.last_update_time) / 3600
    let kwh := s.accumulated_kwh + (power / 1000) * delta_hours
    let cost := kwh * unit_cost_bdt
    let on_time' : Option ℚ := if power_on then some (s.on_time.getD now) else none
    let duration : ℤ :=
      if power_on then pyInt ((now - s.on_time.getD now) / 60) else 0
    ⟨⟨power_on, power, voltage, current_ma, kwh, cost, duration⟩,
     { s with
        accumulated_kwh := kwh
        last_update_time := now
        on_time := on_time'
        duration_minutes := duration },
     false⟩

/-- The durable checkpoint `session_backup.json`:
`{accumulated_kwh, last_update_time}` (dashboard.py, lines 143-147). -/
structure Checkpoint where
  accumulated_kwh : ℚ
  last_update_time : ℚ
deriving DecidableEq, Repr

/-- Session-state initialisation at process start (dashboard.py,
lines 48-67): defaults for the in-memory-only fields, history loaded from
the CSV when present (else empty), and the accumulator pair loaded from the
checkpoint file when present (else `0.0` and the current time). -/
def initial_state (ckpt : Option Checkpoint) (history0 : List HistoryRecord)
    (now : ℚ) : SessionState :=
  { accumulated_kwh := (ckpt.map Checkpoint.accumulated_kwh).getD 0
    last_update_time := (ckpt.map Checkpoint.last_update_time).getD now
    on_time := none
    duration_minutes := 0
    auto_off_active := false
    scheduled_off_time := none
    history := history0
    last_log_time := none }

/-- A command issued to the physical device. -/
inductive Command where
  | turn_on
  | turn_off
deriving DecidableEq, Repr

/-- `toggle_device` (dashboard.py, lines 100-111): issues one on/off command;
the bare `except Exception` catches any failure of the device call (and the
rerun signal raised on the success path), shows `st.error`, and returns
normally in every case.  Output: the commands issued and whether the error
path was taken. -/
def toggle_device (state : Bool) (cmdFails : Bool) : List Command × Bool :=
  ((if state then [Command.turn_on] else [Command.turn_off]), cmdFails)

/-- `schedule_auto_off` (dashboard.py, lines 114-117): unconditionally
overwrites `scheduled_off_time` with `now + hours` and arms the flag. -/
def schedule_auto_off (hours : ℚ) (now : ℚ) (s : SessionState) : SessionState :=
  { s with
      scheduled_off_time := some (now + hours * 3600)
      auto_off_active := true }

/-- The auto-off check run on every script pass (dashboard.py,
lines 205-212): when armed and `scheduled_off_time - now ≤ 0`, call
`toggle_device False` (whose exceptions are caught internally) and clear
`auto_off_active`; otherwise leave the state alone.  Output: the new state
and the device commands issued.  An armed state with no stored deadline is
unreachable through `schedule_auto_off` and is modelled as a no-op. -/
def auto_off_tick (now : ℚ) (cmdFails : Bool) (s : SessionState) :
    SessionState × List Command :=
  if s.auto_off_active then
    match s.scheduled_off_time with
    | some deadline =>
        if deadline - now ≤ 0 then
          ({ s with auto_off_active := false }, (toggle_device false cmdFails).1)
        else (s, [])
    | none => (s, [])
  else (s, [])

/-- Whether the two durable writes of `update_history_row` succeed:
`df.to_csv` (history table) and the `json.dump` checkpoint. -/
structure PersistEnv where
  csvOk : Bool
  ckptOk : Bool
deriving DecidableEq, Repr

/-- Return value and side effects of one `update_history_row` call.
`result` is `some (df, status)` when the call returns normally and `none`
when an uncaught exception propagates to the caller (`raised = true`). -/
structure HistResult where
  state : SessionState
  result : Option (List HistoryRecord × StatusTuple)
  warned : Bool
  appended : Bool
  csvWritten : Bool
  checkpointWritten : Bool
  raised : Bool
deriving DecidableEq, Repr

/-- `update_history_row` (dashboard.py, lines 120-148).  When
`last_log_time` is unset or the history is empty, `last_log_time` is reset
to `now - 61`.  If less than 60 seconds have passed since `last_log_time`,
the function only fetches status (which still updates the accumulator) and
returns the unchanged table.  Otherwise it fetches, stamps `last_log_time`,
appends a record to the in-memory history, rewrites the CSV, and rewrites
the checkpoint — with no exception handler around either write, so a
failing write propagates out of the call.  The two `time.time()` reads and
`datetime.now()` are modelled by the single instant `now`. -/
def update_history_row (fetch : FetchResult) (now : ℚ) (env : PersistEnv)
    (s : SessionState) : HistResult :=
  let llt : ℚ :=
    if s.last_log_time = none ∨ s.history = [] then now - 61
    else s.last_log_time.getD (now - 61)
  let s1 := { s with last_log_time := some llt }
  if now - llt < 60 then
    let r := get_device_status fetch now s1
    { state := r.state
      result := some (r.state.history, r.tuple)
      warned := r.warned
      appended := false
      csvWritten := false
      checkpointWritten := false
      raised := false }
  else
    let r := get_device_status fetch now s1
    let s2 := { r.state with last_log_time := some now }
    let record : HistoryRecord :=
      { time := now
        current_ma := r.tuple.current_ma
        voltage_v := r.tuple.voltage
        power_w := r.tuple.power
        energy_kwh := r.tuple.kwh
        cost_bdt := r.tuple.cost
        duration_min := r.tuple.duration }
    let s3 := { s2 with history := s2.history ++ [record] }
    { state := s3
      result := if env.csvOk && env.ckptOk then some (s3.history, r.tuple) else none
      warned := r.warned
      appended := true
      csvWritten := env.csvOk
      checkpointWritten := env.csvOk && env.ckptOk
      raised := !(env.csvOk && env.ckptOk) }

/-! Concrete states used by witnesses and counterexamples. -/

/-- A fresh session state: zero accumulator, clock origin 0, empty history,
`last_log_time` unset — the state right after a first start with no
persisted files (`initial_state none [] 0`). -/
def baseState : SessionState :=
  { accumulated_kwh := 0
    last_update_time := 0
    on_time := none
    duration_minutes := 0
    auto_off_active := false
    scheduled_off_time := none
    history := []
    last_log_time := none }

/-- A session state whose wall clock last read 3600 s and that holds 5 kWh. -/
def skewState : SessionState :=
  { baseState with accumulated_kwh := 5, last_update_time := 3600 }

/-- An all-zero history row. -/
def zeroRecord : HistoryRecord := ⟨0, 0, 0, 0, 0, 0, 0⟩

/-- A mid-run state: one logged row, `last_log_time` stamped at 0,
5 kWh accumulated. -/
def loggedState : SessionState :=
  { baseState with
      accumulated_kwh := 5
      history := [zeroRecord]
      last_log_time := some 0 }

/-! Helper lemmas. -/

/-- `get_device_status` never touches the history list. -/
theorem gds_history (f : FetchResult) (now : ℚ) (s : SessionState) :
    (get_device_status f now s).state.history = s.history := by
  cases f <;> rfl

/-- `get_device_status` never touches `last_log_time`. -/
theorem gds_last_log_time (f : FetchResult) (now : ℚ) (s : SessionState) :
    (get_device_status f now s).state.last_log_time = s.last_log_time := by
  cases f <;> rfl

/-! Claim theorems. -/

/-- C1 (counterexample to the claim as stated): a single update with
power 1000 W ≥ 0 taken at time 0, on a state whose `last_update_time` is
3600 (clock skew, Δt = −3600 s), strictly decreases `accumulated_kwh`
(from 5 to 4): the code does not clamp a negative Δt. -/
theorem C1_counterexample :
    (get_device_status (.ok ⟨true, 10000, 0, 0⟩) 0 skewState).state.accumulated_kwh
      < skewState.accumulated_kwh := by
  norm_num [get_device_status, skewState, baseState]

/-- C1 (amended): an update whose power is ≥ 0 does not decrease
`accumulated_kwh` provided the clock did not go backwards
(`last_update_time ≤ now`); since this holds for every state, any sequence
of such updates leaves `accumulated_kwh` non-decreasing.  Δt < 0 is not
clamped: with positive power it decreases `accumulated_kwh`. -/
theorem C1_amended_monotone (d : DpsRaw) (now : ℚ) (s : SessionState)
    (hp : 0 ≤ d.cur_power) (ht : s.last_update_time ≤ now) :
    s.accumulated_kwh ≤ (get_device_status (.ok d) now s).state.accumulated_kwh := by
  have h1 : (0 : ℚ) ≤ d.cur_power / 10 / 1000 := by positivity
  have h2 : (0 : ℚ) ≤ (now - s.last_update_time) / 3600 := by
    apply div_nonneg (by linarith) (by norm_num)
  simpa [get_device_status] using mul_nonneg h1 h2

/-- C1 witness: the amended monotonicity at a concrete input
(power 100 W, 3600 s elapsed from the fresh state). -/
theorem C1_amended_monotone_witness :
    baseState.accumulated_kwh ≤
      (get_device_status (.ok ⟨true, 1000, 0, 0⟩) 3600 baseState).state.accumulated_kwh :=
  C1_amended_monotone ⟨true, 1000, 0, 0⟩ 3600 baseState (by norm_num) (by norm_num [baseState])

/-- C2: when the scheduler is armed with a deadline that has been reached
(`deadline ≤ now`), the check issues exactly one `turn_off` command and
clears `auto_off_active`, irrespective of whether the off-command fails
(the failure is caught inside `toggle_device`). -/
theorem C2_auto_off_fires_once (s : SessionState) (now deadline : ℚ) (cmdFails : Bool)
    (hact : s.auto_off_active = true) (hsch : s.scheduled_off_time = some deadline)
    (hdl : deadline ≤ now) :
    (auto_off_tick now cmdFails s).2 = [Command.turn_off] ∧
      (auto_off_tick now cmdFails s).1.auto_off_active = false := by
  have h : deadline - now ≤ 0 := sub_nonpos.mpr hdl
  simp [auto_off_tick, hact, hsch, toggle_device, h]

/-- C2 witness: armed with deadline 5 at time 10 and a failing off-command,
the tick issues one `turn_off` and disarms. -/
theorem C2_auto_off_fires_once_witness :
    (auto_off_tick 10 true
        { baseState with auto_off_active := true, scheduled_off_time := some 5 }).2
        = [Command.turn_off] ∧
      (auto_off_tick 10 true
        { baseState with auto_off_active := true, scheduled_off_time := some 5 }).1.auto_off_active
        = false :=
  C2_auto_off_fires_once _ 10 5 true rfl rfl (by norm_num)

/-- C8 (counterexample to the claim as stated): on a failed fetch at time
200 from a state whose `last_update_time` is 100, `last_update_time` is not
advanced to 200 — the `except` branch returns before the bookkeeping of
lines 80-83 runs. -/
theorem C8_counterexample :
    ¬ (get_device_status .transportError 200
        { baseState with last_update_time := 100 }).state.last_update_time = 200 := by
  norm_num [get_device_status]

/-- C8 (amended): a failed fetch is caught, surfaces a warning, and returns
the zero-valued tuple without aborting, but `last_update_time` is NOT
advanced; consequently the Δt of the next successful update spans from the
last pre-failure update, so it does include the failed-poll interval. -/
theorem C8_amended_failed_fetch (s : SessionState) (t1 t2 : ℚ) (d : DpsRaw) :
    (get_device_status .transportError t1 s).tuple = ⟨false, 0, 0, 0, 0, 0, 0⟩ ∧
    (get_device_status .transportError t1 s).warned = true ∧
    (get_device_status (.ok d) t2
        (get_device_status .transportError t1 s).state).state.accumulated_kwh
      = s.accumulated_kwh + d.cur_power / 10 / 1000 * ((t2 - s.last_update_time) / 3600) := by
  refine ⟨rfl, rfl, ?_⟩
  simp [get_device_status]

/-- C4: loading the checkpoint `{accumulated_kwh = 5, last_update_time = T}`
at restart and performing one successful update at `T + 3600` with power
1000 W (raw `cur_power = 10000`, scaled by 1/10) yields exactly 6 kWh, and
the returned cost equals `accumulated_kwh × unit_cost_bdt`. -/
theorem C4_restart_checkpoint_update (T startup volt curr : ℚ)
    (hist : List HistoryRecord) :
    (get_device_status (.ok ⟨true, 10000, volt, curr⟩) (T + 3600)
        (initial_state (some ⟨5, T⟩) hist startup)).state.accumulated_kwh = 6 ∧
    (get_device_status (.ok ⟨true, 10000, volt, curr⟩) (T + 3600)
        (initial_state (some ⟨5, T⟩) hist startup)).tuple.kwh = 6 ∧
    (get_device_status (.ok ⟨true, 10000, volt, curr⟩) (T + 3600)
        (initial_state (some ⟨5, T⟩) hist startup)).tuple.cost
      = (get_device_status (.ok ⟨true, 10000, volt, curr⟩) (T + 3600)
          (initial_state (some ⟨5, T⟩) hist startup)).tuple.kwh * unit_cost_bdt := by
  refine ⟨?_, ?_, rfl⟩ <;>
    norm_num [get_device_status, initial_state]

/-- C6: from a state with no on-window, a sample with the switch on at `t0`
opens the window (`on_time := t0`); a second on-sample at `t0 + 125`
reports `duration_minutes = 2` (⌊125/60⌋); a later off-sample resets the
duration to 0 and clears `on_time`. -/
theorem C6_duration_tracker (t0 t3 : ℚ) (d1 d2 d3 : DpsRaw) (s : SessionState)
    (h0 : s.on_time = none) (h1 : d1.switch_1 = true) (h2 : d2.switch_1 = true)
    (h3 : d3.switch_1 = false) :
    (get_device_status (.ok d2) (t0 + 125)
        (get_device_status (.ok d1) t0 s).state).tuple.duration = 2 ∧
    (get_device_status (.ok d2) (t0 + 125)
        (get_device_status (.ok d1) t0 s).state).state.duration_minutes = 2 ∧
    (get_device_status (.ok d3) t3
        (get_device_status (.ok d2) (t0 + 125)
          (get_device_status (.ok d1) t0 s).state).state).state.duration_minutes = 0 ∧
    (get_device_status (.ok d3) t3
        (get_device_status (.ok d2) (t0 + 125)
          (get_device_status (.ok d1) t0 s).state).state).state.on_time = none := by
  refine ⟨?_, ?_, ?_, ?_⟩ <;>
    norm_num [get_device_status, h0, h1, h2, h3, pyInt]

/-- C6 witness: the duration tracker at concrete inputs (`t0 = 0`,
off-sample at time 200, fresh state). -/
theorem C6_duration_tracker_witness :
    (get_device_status (.ok ⟨true, 0, 0, 0⟩) (0 + 125)
        (get_device_status (.ok ⟨true, 0, 0, 0⟩) 0 baseState).state).tuple.duration = 2 ∧
    (get_device_status (.ok ⟨true, 0, 0, 0⟩) (0 + 125)
        (get_device_status (.ok ⟨true, 0, 0, 0⟩) 0 baseState).state).state.duration_minutes = 2 ∧
    (get_device_status (.ok ⟨false, 0, 0, 0⟩) 200
        (get_device_status (.ok ⟨true, 0, 0, 0⟩) (0 + 125)
          (get_device_status (.ok ⟨true, 0, 0, 0⟩) 0 baseState).state).state).state.duration_minutes = 0 ∧
    (get_device_status (.ok ⟨false, 0, 0, 0⟩) 200
        (get_device_status (.ok ⟨true, 0, 0, 0⟩) (0 + 125)
          (get_device_status (.ok ⟨true, 0, 0, 0⟩) 0 baseState).state).state).state.on_time = none :=
  C6_duration_tracker 0 200 ⟨true, 0, 0, 0⟩ ⟨true, 0, 0, 0⟩ ⟨false, 0, 0, 0⟩ baseState
    rfl rfl rfl rfl

/-- C7: calling `schedule_auto_off` twice (1 h at `t1`, then 2 h at `t2`)
leaves exactly one pending deadline — `t2 + 2 h` — with the flag armed:
the second call unconditionally overwrites the first deadline. -/
theorem C7_schedule_supersedes (t1 t2 : ℚ) (s : SessionState) :
    (schedule_auto_off 2 t2 (schedule_auto_off 1 t1 s)).scheduled_off_time
        = some (t2 + 2 * 3600) ∧
      (schedule_auto_off 2 t2 (schedule_auto_off 1 t1 s)).auto_off_active = true :=
  ⟨rfl, rfl⟩

/-- Both durable writes succeed. -/
def okEnv : PersistEnv := ⟨true, true⟩

/-- The CSV rewrite fails (so the checkpoint write is never reached). -/
def csvFailEnv : PersistEnv := ⟨false, true⟩

/-- C3 (counterexample to the claim as stated): a call 30 s after the last
logged row recomputes `accumulated_kwh` (5 → 5 + 1/120) but — the
60-second gate failing — persists no checkpoint in that same call. -/
theorem C3_counterexample :
    (update_history_row (.ok ⟨true, 10000, 0, 0⟩) 30 okEnv loggedState).checkpointWritten
        = false ∧
    ¬ (update_history_row (.ok ⟨true, 10000, 0, 0⟩) 30 okEnv
        loggedState).state.accumulated_kwh = loggedState.accumulated_kwh := by
  norm_num [update_history_row, get_device_status, loggedState, baseState, zeroRecord,
    Option.some_ne_none]

/-- C3 (amended): the checkpoint is persisted only by the calls that pass
the 60-second log gate and whose writes succeed; a call within 60 s of the
last log recomputes `accumulated_kwh` without persisting it. -/
theorem C3_amended_checkpoint_on_append (f : FetchResult) (now L : ℚ)
    (env : PersistEnv) (s : SessionState)
    (hl : s.last_log_time = some L) (hh : s.history ≠ []) :
    (now - L < 60 → (update_history_row f now env s).checkpointWritten = false) ∧
      (60 ≤ now - L → env.csvOk = true → env.ckptOk = true →
        (update_history_row f now env s).checkpointWritten = true) := by
  constructor
  · intro h
    simp [update_history_row, hl, hh, h]
  · intro h hc hk
    simp [update_history_row, hl, hh, not_lt.mpr h, hc, hk]

/-- C3 witness: the amended statement at a concrete input (a call 100 s
after the last log, both writes succeeding). -/
theorem C3_amended_checkpoint_on_append_witness :
    ((100 : ℚ) - 0 < 60 →
        (update_history_row (.ok ⟨false, 0, 0, 0⟩) 100 okEnv
          loggedState).checkpointWritten = false) ∧
      ((60 : ℚ) ≤ 100 - 0 → okEnv.csvOk = true → okEnv.ckptOk = true →
        (update_history_row (.ok ⟨false, 0, 0, 0⟩) 100 okEnv
          loggedState).checkpointWritten = true) :=
  C3_amended_checkpoint_on_append (.ok ⟨false, 0, 0, 0⟩) 100 0 okEnv loggedState rfl
    (by simp [loggedState, baseState])

/-- C5 (counterexample to the claim as stated): after a first call at time 0
(which appends), the consecutive calls at times 30 and 50 — a pair
separated by 20 s < 60 s — append zero records between them, not exactly
one: the gate measures elapsed time from the last append, not from the
previous call. -/
theorem C5_counterexample :
    (update_history_row (.ok ⟨false, 0, 0, 0⟩) 30 okEnv
        (update_history_row (.ok ⟨false, 0, 0, 0⟩) 0 okEnv baseState).state).appended
        = false ∧
    (update_history_row (.ok ⟨false, 0, 0, 0⟩) 50 okEnv
        (update_history_row (.ok ⟨false, 0, 0, 0⟩) 30 okEnv
          (update_history_row (.ok ⟨false, 0, 0, 0⟩) 0 okEnv
            baseState).state).state).appended = false := by
  norm_num [update_history_row, get_device_status, baseState, okEnv,
    Option.some_ne_none]

/-- C5 (amended): from a state with empty history the first call always
appends (`last_log_time` is reset to 61 s in the past), and the next call
appends again iff at least 60 s separate it from the first; in general a
call appends iff ≥ 60 s have passed since the last append, so a pair of
consecutive calls < 60 s apart can also append zero records. -/
theorem C5_amended_gate (f1 f2 : FetchResult) (t1 t2 : ℚ) (e1 e2 : PersistEnv)
    (s : SessionState) (h : s.history = []) :
    (update_history_row f1 t1 e1 s).appended = true ∧
      ((update_history_row f2 t2 e2
          (update_history_row f1 t1 e1 s).state).appended = true ↔ 60 ≤ t2 - t1) := by
  have h1 : (update_history_row f1 t1 e1 s).appended = true ∧
      (update_history_row f1 t1 e1 s).state.last_log_time = some t1 ∧
      (update_history_row f1 t1 e1 s).state.history ≠ [] := by
    norm_num [update_history_row, h, sub_sub_cancel, gds_last_log_time, gds_history]
  obtain ⟨ha1, hll, hhist⟩ := h1
  refine ⟨ha1, ?_⟩
  generalize hg : (update_history_row f1 t1 e1 s).state = s2 at hll hhist
  simp only [update_history_row, hll, hhist, Option.getD_some, Option.some_ne_none,
    or_self, if_false, ne_eq]
  split_ifs with hlt
  · exact iff_of_false (by simp) fun hge => by linarith
  · exact iff_of_true rfl (by linarith [not_lt.mp hlt])
  · exact iff_of_true rfl (by linarith [not_lt.mp hlt])

/-- C5 witness: the amended statement at concrete inputs (first call at
time 0 from the fresh state, second call at time 100). -/
theorem C5_amended_gate_witness :
    (update_history_row (.ok ⟨false, 0, 0, 0⟩) 0 okEnv baseState).appended = true ∧
      ((update_history_row (.ok ⟨false, 0, 0, 0⟩) 100 okEnv
          (update_history_row (.ok ⟨false, 0, 0, 0⟩) 0 okEnv
            baseState).state).appended = true ↔ (60 : ℚ) ≤ 100 - 0) :=
  C5_amended_gate (.ok ⟨false, 0, 0, 0⟩) (.ok ⟨false, 0, 0, 0⟩) 0 100 okEnv okEnv
    baseState rfl

/-- C9 (counterexample to the claim as stated): on the very first append,
with the CSV rewrite failing, the exception propagates out of
`update_history_row` (`raised = true`) and no value is returned to the
caller — the failure is not caught or logged, so it does crash the
caller's tick. -/
theorem C9_counterexample :
    (update_history_row (.ok ⟨false, 0, 0, 0⟩) 0 csvFailEnv baseState).raised = true ∧
      (update_history_row (.ok ⟨false, 0, 0, 0⟩) 0 csvFailEnv baseState).result
        = none := by
  norm_num [update_history_row, get_device_status, baseState, csvFailEnv]

/-- C9 (amended): the in-memory session state produced by
`update_history_row` is identical whether or not the durable writes
succeed — the failed write leaves the in-memory history (with its newly
appended record) and accumulator state authoritative — but a failing write
on an appending call raises out of the function, aborting the tick, rather
than being caught and logged. -/
theorem C9_amended_persistence (f : FetchResult) (now : ℚ) (s : SessionState)
    (e1 e2 : PersistEnv) (h : s.history = []) :
    (update_history_row f now e1 s).state = (update_history_row f now e2 s).state ∧
      (update_history_row f now csvFailEnv s).raised = true ∧
      (update_history_row f now csvFailEnv s).state.history ≠ [] := by
  refine ⟨?_, ?_, ?_⟩
  · simp only [update_history_row]
    split_ifs <;> rfl
  · norm_num [update_history_row, h, sub_sub_cancel, csvFailEnv]
  · norm_num [update_history_row, h, sub_sub_cancel]

/-- C9 witness: the amended statement at concrete inputs (first append at
time 0 from the fresh state, comparing a successful and a failing
persistence environment). -/
theorem C9_amended_persistence_witness :
    (update_history_row (.ok ⟨false, 0, 0, 0⟩) 0 okEnv baseState).state
        = (update_history_row (.ok ⟨false, 0, 0, 0⟩) 0 csvFailEnv baseState).state ∧
      (update_history_row (.ok ⟨false, 0, 0, 0⟩) 0 csvFailEnv baseState).raised
        = true ∧
      (update_history_row (.ok ⟨false, 0, 0, 0⟩) 0 csvFailEnv
          baseState).state.history ≠ [] :=
  C9_amended_persistence (.ok ⟨false, 0, 0, 0⟩) 0 baseState okEnv csvFailEnv rfl

/-- C10: when the status fetch raises, `get_device_status` shows a warning
and returns the all-zero tuple `(False, 0, 0, 0, 0, 0, 0)` — energy and
cost reported as 0, not the stored totals — leaving the whole session state
unchanged. -/
theorem C10_fetch_error_state_unchanged (now : ℚ) (s : SessionState) :
    get_device_status .transportError now s = ⟨⟨false, 0, 0, 0, 0, 0, 0⟩, s, true⟩ :=
  rfl

end Dashboard
